import Mathlib

/-!
Verification of the H4 HCI transport (`src/hci_transport_h4.c`): the receive
framing state machine, the send gate, and the lifecycle entry points, embedded
shallowly as pure Lean functions over explicit state.
-/

namespace H4Transport

/-- Modelled from the spec: HCI packet-type tag for Event packets (wire-format
section; value from the HCI headers, which are not part of `src/`). -/
def HCI_EVENT_PACKET : Nat := 0x04

/-- Modelled from the spec: HCI packet-type tag for ACL-data packets. -/
def HCI_ACL_DATA_PACKET : Nat := 0x02

/-- Modelled from the spec: HCI packet-type tag for SCO-data packets. -/
def HCI_SCO_DATA_PACKET : Nat := 0x03

/-- Modelled from the spec: Event header is 2 bytes (event code + length). -/
def HCI_EVENT_HEADER_SIZE : Nat := 2

/-- Modelled from the spec: ACL header is 4 bytes (handle+flags, 16-bit LE length). -/
def HCI_ACL_HEADER_SIZE : Nat := 4

/-- Modelled from the spec: SCO header is 3 bytes (handle, 8-bit length). -/
def HCI_SCO_HEADER_SIZE : Nat := 3

/-- Modelled from the spec: event code of the synthetic "transport packet sent"
event (defined in the HCI headers, not in `src/`; the concrete value is
irrelevant to the claims). -/
def HCI_EVENT_TRANSPORT_PACKET_SENT : Nat := 0x6E

/-- Modelled from the spec: discriminant of the UART-kind transport
configuration (`hci_transport_config_type_t`, not in `src/`). -/
def HCI_TRANSPORT_CONFIG_UART : Nat := 0

/-- The `H4_STATE` enumeration of `hci_transport_h4.c`. -/
inductive H4_STATE where
  | H4_W4_PACKET_TYPE
  | H4_W4_EVENT_HEADER
  | H4_W4_ACL_HEADER
  | H4_W4_SCO_HEADER
  | H4_W4_PAYLOAD
deriving DecidableEq, Repr

/-- The receive-framer portion of the module-level state: `h4_state`,
`bytes_to_read`, `read_pos` and the incoming packet buffer `hci_packet`
(modelled as a total byte map; the C array is `uint8_t`, so stored values are
kept below 256 by the write primitive). -/
structure FramerState where
  h4_state : H4_STATE
  bytes_to_read : Nat
  read_pos : Nat
  hci_packet : Nat → Nat

/-- `hci_transport_h4_reset_statemachine`: back to `H4_W4_PACKET_TYPE`,
`read_pos = 0`, `bytes_to_read = 1`. -/
def hci_transport_h4_reset_statemachine (s : FramerState) : FramerState :=
  { s with h4_state := .H4_W4_PACKET_TYPE, read_pos := 0, bytes_to_read := 1 }

/-- One invocation of the registered packet handler: the C call
`packet_handler(packet_type, data, size)` with `data` the delivered bytes. -/
structure HandlerCall where
  packet_type : Nat
  data : List Nat
  size : Nat
deriving DecidableEq, Repr

/-- Store `data` into the byte buffer at offset `pos` (each byte truncated to
`uint8_t`, as the C array stores `uint8_t`). -/
def updRange (buf : Nat → Nat) (pos : Nat) (data : List Nat) : Nat → Nat :=
  fun i => if pos ≤ i ∧ i < pos + data.length then data.getD (i - pos) 0 % 256 else buf i

/-- Read `n` consecutive bytes starting at offset `pos`. -/
def readRange (buf : Nat → Nat) (pos n : Nat) : List Nat :=
  (List.range n).map fun i => buf (pos + i)

/-- Modelled from the spec: `little_endian_read_16` (from `btstack_util`, not in
`src/`) reads a little-endian 16-bit value: low byte at `position`, high byte at
`position + 1`. -/
def little_endian_read_16 (buffer : Nat → Nat) (position : Nat) : Nat :=
  buffer position + 256 * buffer (position + 1)

/-- `hci_transport_h4_block_read`, the read-completion callback: advance
`read_pos` by the bytes just filled, dispatch on `h4_state`, and return the new
framer state together with the handler call made (if any).  The trailing
`hci_transport_h4_trigger_next_read()` of the C code issues a read of
`bytes_to_read` bytes at `&hci_packet[read_pos]` of the returned state.
`M` is the compile-time constant `HCI_PACKET_BUFFER_SIZE`. -/
def hci_transport_h4_block_read (M : Nat) (s : FramerState) :
    FramerState × Option HandlerCall :=
  let read_pos := s.read_pos + s.bytes_to_read
  let s := { s with read_pos := read_pos }
  match s.h4_state with
  | .H4_W4_PACKET_TYPE =>
      if s.hci_packet 0 = HCI_EVENT_PACKET then
        ({ s with bytes_to_read := HCI_EVENT_HEADER_SIZE,
                  h4_state := .H4_W4_EVENT_HEADER }, none)
      else if s.hci_packet 0 = HCI_ACL_DATA_PACKET then
        ({ s with bytes_to_read := HCI_ACL_HEADER_SIZE,
                  h4_state := .H4_W4_ACL_HEADER }, none)
      else if s.hci_packet 0 = HCI_SCO_DATA_PACKET then
        ({ s with bytes_to_read := HCI_SCO_HEADER_SIZE,
                  h4_state := .H4_W4_SCO_HEADER }, none)
      else
        (hci_transport_h4_reset_statemachine s, none)
  | .H4_W4_EVENT_HEADER =>
      ({ s with bytes_to_read := s.hci_packet 2, h4_state := .H4_W4_PAYLOAD }, none)
  | .H4_W4_ACL_HEADER =>
      let bytes_to_read := little_endian_read_16 s.hci_packet 3
      if HCI_ACL_HEADER_SIZE + bytes_to_read > M then
        (hci_transport_h4_reset_statemachine s, none)
      else
        ({ s with bytes_to_read := bytes_to_read, h4_state := .H4_W4_PAYLOAD }, none)
  | .H4_W4_SCO_HEADER =>
      ({ s with bytes_to_read := s.hci_packet 3, h4_state := .H4_W4_PAYLOAD }, none)
  | .H4_W4_PAYLOAD =>
      (hci_transport_h4_reset_statemachine s,
       some { packet_type := s.hci_packet 0,
              data := readRange s.hci_packet 1 (read_pos - 1),
              size := read_pos - 1 })

/-- A read-completion event delivering `chunk` into the buffer at the current
`read_pos` (the driver writes exactly the block it was asked for), followed by
the `hci_transport_h4_block_read` callback. -/
def h4_deliver (M : Nat) (s : FramerState) (chunk : List Nat) :
    FramerState × Option HandlerCall :=
  hci_transport_h4_block_read M
    { s with hci_packet := updRange s.hci_packet s.read_pos chunk }

/-- Driver model at chunk granularity: the framer state after a sequence of
read-completion events with the given buffer contents. -/
def runChunks (M : Nat) (s : FramerState) : List (List Nat) → FramerState
  | [] => s
  | c :: cs => runChunks M (h4_deliver M s c).1 cs

/-- Handler calls made along a sequence of read-completion events. -/
def runChunksCalls (M : Nat) (s : FramerState) : List (List Nat) → List HandlerCall
  | [] => []
  | c :: cs => (h4_deliver M s c).2.toList ++ runChunksCalls M (h4_deliver M s c).1 cs

/-- Driver model at byte-stream granularity: the driver completes each
requested block with the next `bytes_to_read` bytes of `input` (a block
completes only when the full block is available; `fuel` bounds the number of
completion callbacks processed).  Returns the handler calls made. -/
def runFramer (M : Nat) : Nat → FramerState → List Nat → List HandlerCall
  | 0, _, _ => []
  | fuel + 1, s, input =>
      if s.bytes_to_read ≤ input.length then
        (h4_deliver M s (input.take s.bytes_to_read)).2.toList ++
          runFramer M fuel (h4_deliver M s (input.take s.bytes_to_read)).1
            (input.drop s.bytes_to_read)
      else []

/-- The framer state right after `hci_transport_h4_open` succeeds: the reset
state machine over the zero-initialized static buffer. -/
def initialFramer : FramerState :=
  { h4_state := .H4_W4_PACKET_TYPE, bytes_to_read := 1, read_pos := 0,
    hci_packet := fun _ => 0 }

/-! ### Buffer lemmas -/

theorem updRange_apply_lt (buf : Nat → Nat) (pos : Nat) (data : List Nat) (i : Nat)
    (h : i < pos) : updRange buf pos data i = buf i := by
  simp only [updRange]
  rw [if_neg]
  omega

theorem updRange_apply_ge (buf : Nat → Nat) (pos : Nat) (data : List Nat) (i : Nat)
    (h : pos + data.length ≤ i) : updRange buf pos data i = buf i := by
  simp only [updRange]
  rw [if_neg]
  omega

theorem updRange_apply_in (buf : Nat → Nat) (pos : Nat) (data : List Nat) (i : Nat)
    (h1 : pos ≤ i) (h2 : i < pos + data.length) :
    updRange buf pos data i = data.getD (i - pos) 0 % 256 := by
  simp only [updRange]
  rw [if_pos ⟨h1, h2⟩]

theorem updRange_lt_256 (buf : Nat → Nat) (pos : Nat) (data : List Nat)
    (h : ∀ i, buf i < 256) : ∀ i, updRange buf pos data i < 256 := by
  intro i
  simp only [updRange]
  split
  · exact Nat.mod_lt _ (by norm_num)
  · exact h i

theorem readRange_length (buf : Nat → Nat) (pos n : Nat) :
    (readRange buf pos n).length = n := by
  simp [readRange]

theorem readRange_getElem (buf : Nat → Nat) (pos n i : Nat) (h : i < n) :
    (readRange buf pos n).getD i 0 = buf (pos + i) := by
  simp [readRange, List.getD_eq_getElem?_getD, List.getElem?_map, List.getElem?_range h]

theorem readRange_add (buf : Nat → Nat) (pos m n : Nat) :
    readRange buf pos (m + n) = readRange buf pos m ++ readRange buf (pos + m) n := by
  simp [readRange, List.range_add, Function.comp, Nat.add_assoc]

theorem readRange_updRange (buf : Nat → Nat) (pos : Nat) (data : List Nat)
    (h : ∀ b ∈ data, b < 256) :
    readRange (updRange buf pos data) pos data.length = data := by
  apply List.ext_getElem
  · simp [readRange_length]
  · intro i h1 h2
    simp only [readRange, List.getElem_map, List.getElem_range]
    rw [updRange_apply_in buf pos data (pos + i) (by omega) (by
      simp only [readRange_length] at h1
      omega)]
    have hi : i < data.length := h2
    rw [Nat.add_sub_cancel_left, List.getD_eq_getElem data 0 hi,
      Nat.mod_eq_of_lt (h _ (List.getElem_mem hi))]

/-! ### Single-step characterizations of the read-completion callback -/

theorem deliver_tag_event (M : Nat) (buf : Nat → Nat) :
    h4_deliver M ⟨.H4_W4_PACKET_TYPE, 1, 0, buf⟩ [HCI_EVENT_PACKET] =
      (⟨.H4_W4_EVENT_HEADER, HCI_EVENT_HEADER_SIZE, 1,
        updRange buf 0 [HCI_EVENT_PACKET]⟩, none) := by
  simp [h4_deliver, hci_transport_h4_block_read, updRange, HCI_EVENT_PACKET,
    HCI_EVENT_HEADER_SIZE]

theorem deliver_tag_acl (M : Nat) (buf : Nat → Nat) :
    h4_deliver M ⟨.H4_W4_PACKET_TYPE, 1, 0, buf⟩ [HCI_ACL_DATA_PACKET] =
      (⟨.H4_W4_ACL_HEADER, HCI_ACL_HEADER_SIZE, 1,
        updRange buf 0 [HCI_ACL_DATA_PACKET]⟩, none) := by
  simp [h4_deliver, hci_transport_h4_block_read, updRange, HCI_EVENT_PACKET,
    HCI_ACL_DATA_PACKET, HCI_ACL_HEADER_SIZE]

theorem deliver_tag_sco (M : Nat) (buf : Nat → Nat) :
    h4_deliver M ⟨.H4_W4_PACKET_TYPE, 1, 0, buf⟩ [HCI_SCO_DATA_PACKET] =
      (⟨.H4_W4_SCO_HEADER, HCI_SCO_HEADER_SIZE, 1,
        updRange buf 0 [HCI_SCO_DATA_PACKET]⟩, none) := by
  simp [h4_deliver, hci_transport_h4_block_read, updRange, HCI_EVENT_PACKET,
    HCI_ACL_DATA_PACKET, HCI_SCO_DATA_PACKET, HCI_SCO_HEADER_SIZE]

theorem deliver_tag_invalid (M : Nat) (buf : Nat → Nat) (t : Nat) (ht : t < 256)
    (hne : t ≠ HCI_EVENT_PACKET) (hna : t ≠ HCI_ACL_DATA_PACKET)
    (hns : t ≠ HCI_SCO_DATA_PACKET) :
    h4_deliver M ⟨.H4_W4_PACKET_TYPE, 1, 0, buf⟩ [t] =
      (⟨.H4_W4_PACKET_TYPE, 1, 0, updRange buf 0 [t]⟩, none) := by
  have h0 : updRange buf 0 [t] 0 = t := by
    rw [updRange_apply_in buf 0 [t] 0 (by omega) (by simp)]
    simpa using Nat.mod_eq_of_lt ht
  simp [h4_deliver, hci_transport_h4_block_read, hci_transport_h4_reset_statemachine,
    h0, hne, hna, hns]

theorem deliver_event_header (M : Nat) (buf : Nat → Nat) (ev L : Nat) (hL : L < 256) :
    h4_deliver M ⟨.H4_W4_EVENT_HEADER, 2, 1, buf⟩ [ev, L] =
      (⟨.H4_W4_PAYLOAD, L, 3, updRange buf 1 [ev, L]⟩, none) := by
  have h2 : updRange buf 1 [ev, L] 2 = L := by
    rw [updRange_apply_in buf 1 [ev, L] 2 (by omega) (by simp)]
    simpa using Nat.mod_eq_of_lt hL
  simp [h4_deliver, hci_transport_h4_block_read, h2]

theorem deliver_acl_header_ok (M : Nat) (buf : Nat → Nat) (a b l1 l2 : Nat)
    (h1 : l1 < 256) (h2 : l2 < 256)
    (hfit : HCI_ACL_HEADER_SIZE + (l1 + 256 * l2) ≤ M) :
    h4_deliver M ⟨.H4_W4_ACL_HEADER, 4, 1, buf⟩ [a, b, l1, l2] =
      (⟨.H4_W4_PAYLOAD, l1 + 256 * l2, 5, updRange buf 1 [a, b, l1, l2]⟩, none) := by
  have e3 : updRange buf 1 [a, b, l1, l2] 3 = l1 := by
    rw [updRange_apply_in buf 1 [a, b, l1, l2] 3 (by omega) (by simp)]
    simpa using Nat.mod_eq_of_lt h1
  have e4 : updRange buf 1 [a, b, l1, l2] 4 = l2 := by
    rw [updRange_apply_in buf 1 [a, b, l1, l2] 4 (by omega) (by simp)]
    simpa using Nat.mod_eq_of_lt h2
  simp only [HCI_ACL_HEADER_SIZE] at hfit
  simp [h4_deliver, hci_transport_h4_block_read, little_endian_read_16, e3, e4,
    HCI_ACL_HEADER_SIZE, Nat.not_lt.mpr hfit]

theorem deliver_acl_header_over (M : Nat) (buf : Nat → Nat) (a b l1 l2 : Nat)
    (h1 : l1 < 256) (h2 : l2 < 256)
    (hover : HCI_ACL_HEADER_SIZE + (l1 + 256 * l2) > M) :
    h4_deliver M ⟨.H4_W4_ACL_HEADER, 4, 1, buf⟩ [a, b, l1, l2] =
      (⟨.H4_W4_PACKET_TYPE, 1, 0, updRange buf 1 [a, b, l1, l2]⟩, none) := by
  have e3 : updRange buf 1 [a, b, l1, l2] 3 = l1 := by
    rw [updRange_apply_in buf 1 [a, b, l1, l2] 3 (by omega) (by simp)]
    simpa using Nat.mod_eq_of_lt h1
  have e4 : updRange buf 1 [a, b, l1, l2] 4 = l2 := by
    rw [updRange_apply_in buf 1 [a, b, l1, l2] 4 (by omega) (by simp)]
    simpa using Nat.mod_eq_of_lt h2
  simp only [HCI_ACL_HEADER_SIZE] at hover
  simp [h4_deliver, hci_transport_h4_block_read, hci_transport_h4_reset_statemachine,
    little_endian_read_16, e3, e4, HCI_ACL_HEADER_SIZE, hover]

theorem deliver_sco_header (M : Nat) (buf : Nat → Nat) (a b L : Nat) (hL : L < 256) :
    h4_deliver M ⟨.H4_W4_SCO_HEADER, 3, 1, buf⟩ [a, b, L] =
      (⟨.H4_W4_PAYLOAD, L, 4, updRange buf 1 [a, b, L]⟩, none) := by
  have h3 : updRange buf 1 [a, b, L] 3 = L := by
    rw [updRange_apply_in buf 1 [a, b, L] 3 (by omega) (by simp)]
    simpa using Nat.mod_eq_of_lt hL
  simp [h4_deliver, hci_transport_h4_block_read, h3]

theorem deliver_payload (M : Nat) (buf : Nat → Nat) (n pos : Nat) (payload : List Nat) :
    h4_deliver M ⟨.H4_W4_PAYLOAD, n, pos, buf⟩ payload =
      (⟨.H4_W4_PACKET_TYPE, 1, 0, updRange buf pos payload⟩,
       some ⟨updRange buf pos payload 0,
             readRange (updRange buf pos payload) 1 (pos + n - 1), pos + n - 1⟩) := by
  simp [h4_deliver, hci_transport_h4_block_read, hci_transport_h4_reset_statemachine]

theorem runFramer_succ (M fuel : Nat) (s : FramerState) (input : List Nat) :
    runFramer M (fuel + 1) s input =
      if s.bytes_to_read ≤ input.length then
        (h4_deliver M s (input.take s.bytes_to_read)).2.toList ++
          runFramer M fuel (h4_deliver M s (input.take s.bytes_to_read)).1
            (input.drop s.bytes_to_read)
      else [] := rfl

/-! ### Packet-level delivery -/

/-- A well-formed wire packet paired with the handler call it must produce:
the packet-type tag, the fixed-size header whose length field declares the
payload length, and exactly that many payload bytes (all bytes are octets;
an ACL packet must additionally pass the code's capacity check). -/
inductive WFPkt (M : Nat) : List Nat → HandlerCall → Prop where
  | event (ev L : Nat) (payload : List Nat) (hev : ev < 256) (hL : L < 256)
      (hb : ∀ x ∈ payload, x < 256) (hlen : payload.length = L) :
      WFPkt M (HCI_EVENT_PACKET :: ev :: L :: payload)
        ⟨HCI_EVENT_PACKET, ev :: L :: payload, 2 + L⟩
  | acl (a b l1 l2 : Nat) (payload : List Nat) (ha : a < 256) (hb2 : b < 256)
      (h1 : l1 < 256) (h2 : l2 < 256) (hb : ∀ x ∈ payload, x < 256)
      (hlen : payload.length = l1 + 256 * l2)
      (hfit : HCI_ACL_HEADER_SIZE + (l1 + 256 * l2) ≤ M) :
      WFPkt M (HCI_ACL_DATA_PACKET :: a :: b :: l1 :: l2 :: payload)
        ⟨HCI_ACL_DATA_PACKET, a :: b :: l1 :: l2 :: payload, 4 + (l1 + 256 * l2)⟩
  | sco (a b L : Nat) (payload : List Nat) (ha : a < 256) (hb2 : b < 256)
      (hL : L < 256) (hb : ∀ x ∈ payload, x < 256) (hlen : payload.length = L) :
      WFPkt M (HCI_SCO_DATA_PACKET :: a :: b :: L :: payload)
        ⟨HCI_SCO_DATA_PACKET, a :: b :: L :: payload, 3 + L⟩

theorem runFramer_payload_end (M : Nat) (buf : Nat → Nat) (n pos : Nat)
    (payload : List Nat) (hlen : payload.length = n) (fuel : Nat) :
    runFramer M (fuel + 2) ⟨.H4_W4_PAYLOAD, n, pos, buf⟩ payload =
      [⟨updRange buf pos payload 0,
        readRange (updRange buf pos payload) 1 (pos + n - 1), pos + n - 1⟩] := by
  rw [show fuel + 2 = (fuel + 1) + 1 from rfl, runFramer_succ,
    if_pos (by simp only []; omega), show (⟨.H4_W4_PAYLOAD, n, pos, buf⟩ :
      FramerState).bytes_to_read = n from rfl, ← hlen, List.take_length,
    List.drop_length, hlen, deliver_payload, runFramer_succ,
    if_neg (by simp)]
  simp

/-- Feeding one well-formed packet to the framer from the awaiting-type state
over an arbitrary buffer yields exactly the expected handler call. -/
theorem wfPkt_run (M : Nat) (buf : Nat → Nat) (pkt : List Nat) (call : HandlerCall)
    (h : WFPkt M pkt call) :
    runFramer M 4 ⟨.H4_W4_PACKET_TYPE, 1, 0, buf⟩ pkt = [call] := by
  cases h with
  | event ev L payload hev hL hb hlen =>
    subst hlen
    rw [show (4 : Nat) = 3 + 1 from rfl, runFramer_succ, if_pos (by simp)]
    simp only [show (⟨.H4_W4_PACKET_TYPE, 1, 0, buf⟩ : FramerState).bytes_to_read = 1
      from rfl, List.take_succ_cons, List.take_zero, List.drop_succ_cons,
      List.drop_zero, deliver_tag_event, Option.toList, List.nil_append]
    rw [show (3 : Nat) = 2 + 1 from rfl, runFramer_succ,
      if_pos (by simp only [HCI_EVENT_HEADER_SIZE]; simp)]
    simp only [show HCI_EVENT_HEADER_SIZE = 2 from rfl,
      show (⟨.H4_W4_EVENT_HEADER, 2, 1, updRange buf 0 [HCI_EVENT_PACKET]⟩ :
        FramerState).bytes_to_read = 2 from rfl,
      List.take_succ_cons, List.take_zero, List.drop_succ_cons, List.drop_zero,
      deliver_event_header M _ ev payload.length hL, Option.toList, List.nil_append]
    rw [show (2 : Nat) = 0 + 2 from rfl, runFramer_payload_end M _ _ 3 payload rfl 0]
    have e0 : updRange (updRange (updRange buf 0 [HCI_EVENT_PACKET]) 1
        [ev, payload.length]) 3 payload 0 = HCI_EVENT_PACKET := by
      rw [updRange_apply_lt _ _ _ _ (by omega), updRange_apply_lt _ _ _ _ (by omega),
        updRange_apply_in _ _ _ _ (by omega) (by simp)]
      simp [HCI_EVENT_PACKET]
    have e1 : updRange (updRange (updRange buf 0 [HCI_EVENT_PACKET]) 1
        [ev, payload.length]) 3 payload 1 = ev := by
      rw [updRange_apply_lt _ _ _ _ (by omega),
        updRange_apply_in _ _ _ _ (by omega) (by simp)]
      simpa using Nat.mod_eq_of_lt hev
    have e2 : updRange (updRange (updRange buf 0 [HCI_EVENT_PACKET]) 1
        [ev, payload.length]) 3 payload 2 = payload.length := by
      rw [updRange_apply_lt _ _ _ _ (by omega),
        updRange_apply_in _ _ _ _ (by omega) (by simp)]
      simpa using Nat.mod_eq_of_lt hL
    have er : readRange (updRange (updRange (updRange buf 0 [HCI_EVENT_PACKET]) 1
        [ev, payload.length]) 3 payload) 1 (3 + payload.length - 1) =
        ev :: payload.length :: payload := by
      rw [show 3 + payload.length - 1 = 2 + payload.length from by omega,
        readRange_add]
      rw [show (1 : Nat) + 2 = 3 from rfl,
        show readRange (updRange (updRange (updRange buf 0 [HCI_EVENT_PACKET]) 1
          [ev, payload.length]) 3 payload) 3 payload.length = payload from
          readRange_updRange _ _ _ hb]
      simp [readRange, List.range_succ, e1, e2]
    rw [e0, er, show 3 + payload.length - 1 = 2 + payload.length from by omega]
  | acl a b l1 l2 payload ha hb2 h1 h2 hb hlen hfit =>
    rw [show (4 : Nat) = 3 + 1 from rfl, runFramer_succ, if_pos (by simp)]
    simp only [show (⟨.H4_W4_PACKET_TYPE, 1, 0, buf⟩ : FramerState).bytes_to_read = 1
      from rfl, List.take_succ_cons, List.take_zero, List.drop_succ_cons,
      List.drop_zero, deliver_tag_acl, Option.toList, List.nil_append]
    rw [show (3 : Nat) = 2 + 1 from rfl, runFramer_succ,
      if_pos (by simp only [HCI_ACL_HEADER_SIZE]; simp)]
    simp only [show HCI_ACL_HEADER_SIZE = 4 from rfl,
      show (⟨.H4_W4_ACL_HEADER, 4, 1, updRange buf 0 [HCI_ACL_DATA_PACKET]⟩ :
        FramerState).bytes_to_read = 4 from rfl,
      List.take_succ_cons, List.take_zero, List.drop_succ_cons, List.drop_zero,
      deliver_acl_header_ok M _ a b l1 l2 h1 h2 hfit, Option.toList, List.nil_append]
    rw [show (2 : Nat) = 0 + 2 from rfl,
      runFramer_payload_end M _ _ 5 payload hlen 0]
    have e0 : updRange (updRange (updRange buf 0 [HCI_ACL_DATA_PACKET]) 1
        [a, b, l1, l2]) 5 payload 0 = HCI_ACL_DATA_PACKET := by
      rw [updRange_apply_lt _ _ _ _ (by omega), updRange_apply_lt _ _ _ _ (by omega),
        updRange_apply_in _ _ _ _ (by omega) (by simp)]
      simp [HCI_ACL_DATA_PACKET]
    have ehdr : ∀ i x, i < 4 → [a, b, l1, l2].getD i 0 = x → x < 256 →
        updRange (updRange (updRange buf 0 [HCI_ACL_DATA_PACKET]) 1
          [a, b, l1, l2]) 5 payload (1 + i) = x := by
      intro i x hi hx hlt
      rw [updRange_apply_lt _ _ _ _ (by omega),
        updRange_apply_in _ _ _ _ (by omega) (by simpa using by omega),
        Nat.add_sub_cancel_left, hx, Nat.mod_eq_of_lt hlt]
    have er : readRange (updRange (updRange (updRange buf 0 [HCI_ACL_DATA_PACKET]) 1
        [a, b, l1, l2]) 5 payload) 1 (5 + (l1 + 256 * l2) - 1) =
        a :: b :: l1 :: l2 :: payload := by
      rw [show 5 + (l1 + 256 * l2) - 1 = 4 + (l1 + 256 * l2) from by omega,
        readRange_add]
      rw [show (1 : Nat) + 4 = 5 from rfl, ← hlen,
        readRange_updRange _ _ _ hb]
      have g0 := ehdr 0 a (by omega) rfl ha
      have g1 := ehdr 1 b (by omega) rfl hb2
      have g2 := ehdr 2 l1 (by omega) rfl h1
      have g3 := ehdr 3 l2 (by omega) rfl h2
      simp only [show (1 : Nat) + 0 = 1 from rfl, show (1 : Nat) + 1 = 2 from rfl,
        show (1 : Nat) + 2 = 3 from rfl, show (1 : Nat) + 3 = 4 from rfl] at g0 g1 g2 g3
      simp [readRange, List.range_succ, g0, g1, g2, g3]
    rw [e0, er, show 5 + (l1 + 256 * l2) - 1 = 4 + (l1 + 256 * l2) from by omega]
  | sco a b L payload ha hb2 hL hb hlen =>
    subst hlen
    rw [show (4 : Nat) = 3 + 1 from rfl, runFramer_succ, if_pos (by simp)]
    simp only [show (⟨.H4_W4_PACKET_TYPE, 1, 0, buf⟩ : FramerState).bytes_to_read = 1
      from rfl, List.take_succ_cons, List.take_zero, List.drop_succ_cons,
      List.drop_zero, deliver_tag_sco, Option.toList, List.nil_append]
    rw [show (3 : Nat) = 2 + 1 from rfl, runFramer_succ,
      if_pos (by simp only [HCI_SCO_HEADER_SIZE]; simp)]
    simp only [show HCI_SCO_HEADER_SIZE = 3 from rfl,
      show (⟨.H4_W4_SCO_HEADER, 3, 1, updRange buf 0 [HCI_SCO_DATA_PACKET]⟩ :
        FramerState).bytes_to_read = 3 from rfl,
      List.take_succ_cons, List.take_zero, List.drop_succ_cons, List.drop_zero,
      deliver_sco_header M _ a b payload.length hL, Option.toList, List.nil_append]
    rw [show (2 : Nat) = 0 + 2 from rfl, runFramer_payload_end M _ _ 4 payload rfl 0]
    have e0 : updRange (updRange (updRange buf 0 [HCI_SCO_DATA_PACKET]) 1
        [a, b, payload.length]) 4 payload 0 = HCI_SCO_DATA_PACKET := by
      rw [updRange_apply_lt _ _ _ _ (by omega), updRange_apply_lt _ _ _ _ (by omega),
        updRange_apply_in _ _ _ _ (by omega) (by simp)]
      simp [HCI_SCO_DATA_PACKET]
    have e1 : updRange (updRange (updRange buf 0 [HCI_SCO_DATA_PACKET]) 1
        [a, b, payload.length]) 4 payload 1 = a := by
      rw [updRange_apply_lt _ _ _ _ (by omega),
        updRange_apply_in _ _ _ _ (by omega) (by simp)]
      simpa using Nat.mod_eq_of_lt ha
    have e2 : updRange (updRange (updRange buf 0 [HCI_SCO_DATA_PACKET]) 1
        [a, b, payload.length]) 4 payload 2 = b := by
      rw [updRange_apply_lt _ _ _ _ (by omega),
        updRange_apply_in _ _ _ _ (by omega) (by simp)]
      simpa using Nat.mod_eq_of_lt hb2
    have e3 : updRange (updRange (updRange buf 0 [HCI_SCO_DATA_PACKET]) 1
        [a, b, payload.length]) 4 payload 3 = payload.length := by
      rw [updRange_apply_lt _ _ _ _ (by omega),
        updRange_apply_in _ _ _ _ (by omega) (by simp)]
      simpa using Nat.mod_eq_of_lt hL
    have er : readRange (updRange (updRange (updRange buf 0 [HCI_SCO_DATA_PACKET]) 1
        [a, b, payload.length]) 4 payload) 1 (4 + payload.length - 1) =
        a :: b :: payload.length :: payload := by
      rw [show 4 + payload.length - 1 = 3 + payload.length from by omega,
        readRange_add]
      rw [show (1 : Nat) + 3 = 4 from rfl,
        show readRange (updRange (updRange (updRange buf 0 [HCI_SCO_DATA_PACKET]) 1
          [a, b, payload.length]) 4 payload) 4 payload.length = payload from
          readRange_updRange _ _ _ hb]
      simp [readRange, List.range_succ, e1, e2, e3]
    rw [e0, er, show 4 + payload.length - 1 = 3 + payload.length from by omega]

/-- C1: for every received Event packet whose header declares parameter length
L, the receive framer invokes the registered handler exactly once, with
reported length equal to the declared header size (2) plus L and with the data
being all bytes after the type tag. -/
theorem event_packet_delivery (M : Nat) (buf : Nat → Nat) (ev L : Nat)
    (payload : List Nat) (hev : ev < 256) (hL : L < 256)
    (hb : ∀ x ∈ payload, x < 256) (hlen : payload.length = L) :
    runFramer M 4 ⟨.H4_W4_PACKET_TYPE, 1, 0, buf⟩
        (HCI_EVENT_PACKET :: ev :: L :: payload) =
      [⟨HCI_EVENT_PACKET, ev :: L :: payload, HCI_EVENT_HEADER_SIZE + L⟩] :=
  wfPkt_run M buf _ _ (WFPkt.event ev L payload hev hL hb hlen)

/-- C1 witness: the byte stream `[0x04, 0x0E, 0x02, 0xAB, 0xCD]` yields exactly
one handler call with type 0x04, data `[0x0E, 0x02, 0xAB, 0xCD]`, length 4. -/
theorem event_packet_delivery_witness :
    runFramer 258 4 initialFramer [0x04, 0x0E, 0x02, 0xAB, 0xCD] =
      [⟨0x04, [0x0E, 0x02, 0xAB, 0xCD], 4⟩] :=
  event_packet_delivery 258 (fun _ => 0) 0x0E 0x02 [0xAB, 0xCD]
    (by decide) (by decide) (by decide) (by decide)

/-- C5: a single corrupt type-tag byte followed by one well-formed packet yields
no handler call for the corrupt byte and exactly one handler call carrying the
subsequent packet's header+payload bytes unchanged. -/
theorem resync_after_corrupt_tag (M : Nat) (buf : Nat → Nat) (t : Nat)
    (pkt : List Nat) (call : HandlerCall) (ht : t < 256)
    (hne : t ≠ HCI_EVENT_PACKET) (hna : t ≠ HCI_ACL_DATA_PACKET)
    (hns : t ≠ HCI_SCO_DATA_PACKET) (h : WFPkt M pkt call) :
    runFramer M 5 ⟨.H4_W4_PACKET_TYPE, 1, 0, buf⟩ (t :: pkt) = [call] := by
  rw [show (5 : Nat) = 4 + 1 from rfl, runFramer_succ, if_pos (by simp)]
  simp only [show (⟨.H4_W4_PACKET_TYPE, 1, 0, buf⟩ : FramerState).bytes_to_read = 1
    from rfl, List.take_succ_cons, List.take_zero, List.drop_succ_cons,
    List.drop_zero, deliver_tag_invalid M buf t ht hne hna hns, Option.toList,
    List.nil_append]
  exact wfPkt_run M _ pkt call h

/-- C5 witness: the corrupt byte 0xFF followed by the ACL packet
`[0x02, 0x01, 0x00, 0x01, 0x00, 0x99]` yields exactly one handler call with
type 0x02, data `[0x01, 0x00, 0x01, 0x00, 0x99]`, length 5. -/
theorem resync_after_corrupt_tag_witness :
    runFramer 258 5 initialFramer [0xFF, 0x02, 0x01, 0x00, 0x01, 0x00, 0x99] =
      [⟨0x02, [0x01, 0x00, 0x01, 0x00, 0x99], 5⟩] :=
  resync_after_corrupt_tag 258 (fun _ => 0) 0xFF
    [0x02, 0x01, 0x00, 0x01, 0x00, 0x99] ⟨0x02, [0x01, 0x00, 0x01, 0x00, 0x99], 5⟩
    (by decide) (by decide) (by decide) (by decide)
    (WFPkt.acl 0x01 0x00 0x01 0x00 [0x99] (by decide) (by decide) (by decide)
      (by decide) (by decide) (by decide) (by decide))

/-- C4: an ACL header whose little-endian 16-bit length L makes `4 + L` exceed
`HCI_PACKET_BUFFER_SIZE` causes the framer to reset (state awaiting-type,
`read_pos = 0`, `bytes_to_read = 1`, so the next read is again a single type
byte at offset 0) and to deliver no packet to the handler. -/
theorem acl_oversize_resets (M : Nat) (buf : Nat → Nat) (a b l1 l2 : Nat)
    (h1 : l1 < 256) (h2 : l2 < 256)
    (hover : HCI_ACL_HEADER_SIZE + (l1 + 256 * l2) > M) :
    runChunks M ⟨.H4_W4_PACKET_TYPE, 1, 0, buf⟩
        [[HCI_ACL_DATA_PACKET], [a, b, l1, l2]] =
      ⟨.H4_W4_PACKET_TYPE, 1, 0,
        updRange (updRange buf 0 [HCI_ACL_DATA_PACKET]) 1 [a, b, l1, l2]⟩ ∧
    runChunksCalls M ⟨.H4_W4_PACKET_TYPE, 1, 0, buf⟩
        [[HCI_ACL_DATA_PACKET], [a, b, l1, l2]] = [] := by
  constructor
  · simp [runChunks, HCI_ACL_HEADER_SIZE, deliver_tag_acl,
      deliver_acl_header_over M _ a b l1 l2 h1 h2 hover]
  · simp [runChunksCalls, HCI_ACL_HEADER_SIZE, deliver_tag_acl,
      deliver_acl_header_over M _ a b l1 l2 h1 h2 hover]

/-- C4 witness: with `HCI_PACKET_BUFFER_SIZE = 258`, an ACL header declaring
length 255 (`4 + 255 > 258`) resets the framer and delivers nothing. -/
theorem acl_oversize_resets_witness :
    runChunks 258 ⟨.H4_W4_PACKET_TYPE, 1, 0, fun _ => 0⟩
        [[HCI_ACL_DATA_PACKET], [0, 0, 255, 0]] =
      ⟨.H4_W4_PACKET_TYPE, 1, 0,
        updRange (updRange (fun _ => 0) 0 [HCI_ACL_DATA_PACKET]) 1 [0, 0, 255, 0]⟩ ∧
    runChunksCalls 258 ⟨.H4_W4_PACKET_TYPE, 1, 0, fun _ => 0⟩
        [[HCI_ACL_DATA_PACKET], [0, 0, 255, 0]] = [] :=
  acl_oversize_resets 258 (fun _ => 0) 0 0 255 0 (by decide) (by decide) (by decide)

/-! ### Reachability invariant for the read cursor (C2) -/

/-- Shape invariant of every reachable framer state: buffer bytes are octets,
and in each state the read cursor has the shape the state machine establishes
(`M` is `HCI_PACKET_BUFFER_SIZE`). -/
def FramerInv (M : Nat) (s : FramerState) : Prop :=
  (∀ i, s.hci_packet i < 256) ∧
  ((s.h4_state = .H4_W4_PACKET_TYPE ∧ s.read_pos = 0 ∧ s.bytes_to_read = 1) ∨
   (s.h4_state = .H4_W4_EVENT_HEADER ∧ s.read_pos = 1 ∧ s.bytes_to_read = 2) ∨
   (s.h4_state = .H4_W4_ACL_HEADER ∧ s.read_pos = 1 ∧ s.bytes_to_read = 4) ∨
   (s.h4_state = .H4_W4_SCO_HEADER ∧ s.read_pos = 1 ∧ s.bytes_to_read = 3) ∨
   (s.h4_state = .H4_W4_PAYLOAD ∧ s.read_pos + s.bytes_to_read ≤ M + 1))

theorem framerInv_deliver (M : Nat) (hM : 258 ≤ M) (s : FramerState) (c : List Nat)
    (h : FramerInv M s) : FramerInv M (h4_deliver M s c).1 := by
  obtain ⟨st, btr, rp, buf⟩ := s
  obtain ⟨hbuf, hcase⟩ := h
  have hbuf' : ∀ i, updRange buf rp c i < 256 := updRange_lt_256 buf rp c hbuf
  rcases hcase with ⟨hs, hrp, hbtr⟩ | ⟨hs, hrp, hbtr⟩ | ⟨hs, hrp, hbtr⟩ |
    ⟨hs, hrp, hbtr⟩ | ⟨hs, hbound⟩
  all_goals simp only at hs ⊢
  all_goals subst hs
  all_goals first
    | (simp only at hrp hbtr; subst hrp; subst hbtr)
    | skip
  · -- H4_W4_PACKET_TYPE
    simp only [h4_deliver, hci_transport_h4_block_read,
      hci_transport_h4_reset_statemachine]
    split_ifs
    · exact ⟨hbuf', Or.inr (Or.inl ⟨rfl, rfl, rfl⟩)⟩
    · exact ⟨hbuf', Or.inr (Or.inr (Or.inl ⟨rfl, rfl, rfl⟩))⟩
    · exact ⟨hbuf', Or.inr (Or.inr (Or.inr (Or.inl ⟨rfl, rfl, rfl⟩)))⟩
    · exact ⟨hbuf', Or.inl ⟨rfl, rfl, rfl⟩⟩
  · -- H4_W4_EVENT_HEADER
    simp only [h4_deliver, hci_transport_h4_block_read]
    refine ⟨hbuf', Or.inr (Or.inr (Or.inr (Or.inr ⟨rfl, ?_⟩)))⟩
    have := hbuf' 2
    dsimp only
    omega
  · -- H4_W4_ACL_HEADER
    simp only [h4_deliver, hci_transport_h4_block_read,
      hci_transport_h4_reset_statemachine, little_endian_read_16,
      HCI_ACL_HEADER_SIZE]
    split_ifs with hch
    · exact ⟨hbuf', Or.inl ⟨rfl, rfl, rfl⟩⟩
    · refine ⟨hbuf', Or.inr (Or.inr (Or.inr (Or.inr ⟨rfl, ?_⟩)))⟩
      dsimp only
      omega
  · -- H4_W4_SCO_HEADER
    simp only [h4_deliver, hci_transport_h4_block_read]
    refine ⟨hbuf', Or.inr (Or.inr (Or.inr (Or.inr ⟨rfl, ?_⟩)))⟩
    have := hbuf' 3
    dsimp only
    omega
  · -- H4_W4_PAYLOAD
    simp only [h4_deliver, hci_transport_h4_block_read,
      hci_transport_h4_reset_statemachine]
    exact ⟨hbuf', Or.inl ⟨rfl, rfl, rfl⟩⟩

theorem framerInv_runChunks (M : Nat) (hM : 258 ≤ M) (s : FramerState)
    (h : FramerInv M s) : ∀ cs, FramerInv M (runChunks M s cs) := by
  intro cs
  induction cs generalizing s with
  | nil => exact h
  | cons c cs ih =>
      simp only [runChunks]
      exact ih _ (framerInv_deliver M hM s c h)

/-- C2 (amended): starting from the reset state and stepping by any sequence of
read-completion events with arbitrary buffer bytes, at every point where a read
is issued the cursor satisfies `read_pos + bytes_to_read ≤ HCI_PACKET_BUFFER_SIZE + 1`
(the incoming buffer holds `1 + HCI_PACKET_BUFFER_SIZE` bytes: one type tag plus
`HCI_PACKET_BUFFER_SIZE`), provided `HCI_PACKET_BUFFER_SIZE ≥ 258` so that the
unchecked one-byte Event/SCO length fields also fit. -/
theorem read_request_bound (M : Nat) (hM : 258 ≤ M) (chunks : List (List Nat)) :
    (runChunks M initialFramer chunks).read_pos +
      (runChunks M initialFramer chunks).bytes_to_read ≤ M + 1 := by
  have h0 : FramerInv M initialFramer :=
    ⟨fun i => by simp [initialFramer], Or.inl ⟨rfl, rfl, rfl⟩⟩
  obtain ⟨-, hc⟩ := framerInv_runChunks M hM initialFramer h0 chunks
  rcases hc with ⟨_, e1, e2⟩ | ⟨_, e1, e2⟩ | ⟨_, e1, e2⟩ | ⟨_, e1, e2⟩ | ⟨_, hb⟩ <;>
    omega

/-- C2 witness: with `HCI_PACKET_BUFFER_SIZE = 258`, after a SCO header
declaring the maximal length 255 the next read request still fits the
`M + 1`-byte buffer. -/
theorem read_request_bound_witness :
    (runChunks 258 initialFramer [[HCI_SCO_DATA_PACKET], [0, 0, 255]]).read_pos +
      (runChunks 258 initialFramer [[HCI_SCO_DATA_PACKET], [0, 0, 255]]).bytes_to_read ≤
      258 + 1 :=
  read_request_bound 258 (by decide) [[HCI_SCO_DATA_PACKET], [0, 0, 255]]

/-- C2 counterexample: the invariant as stated (`read_pos + bytes_to_read ≤
HCI_PACKET_BUFFER_SIZE`) fails at a read-issue point: with
`HCI_PACKET_BUFFER_SIZE = 258`, an ACL header declaring length 254 passes the
capacity check (`4 + 254 ≤ 258`), after which the issued payload read has
`read_pos = 5` and `bytes_to_read = 254`, summing to 259 > 258. -/
theorem read_request_exceeds_buffer_size :
    ¬ ((runChunks 258 initialFramer [[HCI_ACL_DATA_PACKET], [0, 0, 254, 0]]).read_pos +
       (runChunks 258 initialFramer
         [[HCI_ACL_DATA_PACKET], [0, 0, 254, 0]]).bytes_to_read ≤ 258) := by
  decide

/-! ### Send gate -/

/-- `hci_transport_h4_can_send_now`: true iff the write mutex
`uart_write_active` is clear (the `packet_type` argument is ignored by the C
code). -/
def hci_transport_h4_can_send_now (packet_type uart_write_active : Nat) : Bool :=
  uart_write_active == 0

/-- `hci_transport_h4_send_packet`: stores the type tag in the byte immediately
preceding the payload (the pre-buffer byte; `uint8_t` store), increments the
size, sets the write mutex, hands the block starting at the tag to
`send_block`, and returns 0 — with no check of the mutex.  Takes the current
`uart_write_active`; returns (return value, new `uart_write_active`, the block
handed to the driver together with its length). -/
def hci_transport_h4_send_packet (uart_write_active : Nat) (packet_type : Nat)
    (packet : List Nat) (size : Nat) : Int × Nat × (List Nat × Nat) :=
  (0, 1, (packet_type % 256 :: packet, size + 1))

/-- `hci_transport_h4_block_sent`, the write-completion callback: frees the
mutex first, then notifies the upper stack with the synthetic 2-byte
"transport packet sent" event.  Returns the mutex value current when the
handler is invoked (the assignment precedes the call) and the single handler
call made. -/
def hci_transport_h4_block_sent (uart_write_active : Nat) : Nat × HandlerCall :=
  let uart_write_active := 0
  (uart_write_active,
   { packet_type := HCI_EVENT_PACKET,
     data := [HCI_EVENT_TRANSPORT_PACKET_SENT, 0],
     size := 2 })

/-- Events acting on the write gate: a `send_packet` call and the driver's
write-completion callback. -/
inductive GateEvent where
  | send
  | sent
deriving DecidableEq, Repr

/-- Effect of one gate event on `uart_write_active`, read off the embedded
functions: `send_packet` sets the mutex, `block_sent` clears it. -/
def gateStep (uart_write_active : Nat) : GateEvent → Nat
  | .send => (hci_transport_h4_send_packet uart_write_active 0 [] 0).2.1
  | .sent => (hci_transport_h4_block_sent uart_write_active).1

/-- `uart_write_active` after a trace of gate events (the static variable is
zero-initialized). -/
def runGate (tr : List GateEvent) : Nat := tr.foldl gateStep 0

/-- Number of driver writes issued and not yet completed along a trace. -/
def pendingWrites (tr : List GateEvent) : Nat :=
  tr.count .send - tr.count .sent

/-- Well-formed executions of the send gate: the consumer calls `send_packet`
only when `can_send_now` holds (the documented contract) and the driver fires
exactly one completion per outstanding write. -/
inductive WFGateTrace : List GateEvent → Prop where
  | nil : WFGateTrace []
  | send (tr : List GateEvent) (h : WFGateTrace tr)
      (hc : hci_transport_h4_can_send_now 0 (runGate tr) = true) :
      WFGateTrace (tr ++ [.send])
  | sent (tr : List GateEvent) (h : WFGateTrace tr)
      (hp : pendingWrites tr = 1) : WFGateTrace (tr ++ [.sent])

theorem runGate_eq_pendingWrites (tr : List GateEvent) (h : WFGateTrace tr) :
    tr.count .sent ≤ tr.count .send ∧
    tr.count .send - tr.count .sent = runGate tr ∧ runGate tr ≤ 1 := by
  induction h with
  | nil => simp [runGate]
  | send tr h hc ih =>
      simp only [hci_transport_h4_can_send_now, beq_iff_eq] at hc
      obtain ⟨i1, i2, i3⟩ := ih
      have hg : runGate (tr ++ [.send]) = 1 := by
        simp [runGate, List.foldl_append, gateStep, hci_transport_h4_send_packet]
      have hcs : (tr ++ [GateEvent.send]).count GateEvent.send =
          tr.count GateEvent.send + 1 := by
        simp [List.count_append]
      have hct : (tr ++ [GateEvent.send]).count GateEvent.sent =
          tr.count GateEvent.sent := by
        simp [List.count_append]
      rw [hg, hcs, hct]
      omega
  | sent tr h hp ih =>
      simp only [pendingWrites] at hp
      obtain ⟨i1, i2, i3⟩ := ih
      have hg : runGate (tr ++ [.sent]) = 0 := by
        simp [runGate, List.foldl_append, gateStep, hci_transport_h4_block_sent]
      have hcs : (tr ++ [GateEvent.sent]).count GateEvent.send =
          tr.count GateEvent.send := by
        simp [List.count_append]
      have hct : (tr ++ [GateEvent.sent]).count GateEvent.sent =
          tr.count GateEvent.sent + 1 := by
        simp [List.count_append]
      rw [hg, hcs, hct]
      omega

/-- C3: in every well-formed execution of the send gate, `can_send_now`
returns false exactly while a driver write is outstanding — from each
`send_packet` call until the matching write-completion callback — and true at
every other point; in particular a write is never outstanding while
`can_send_now` returns true. -/
theorem send_gate_exclusivity (packet_type : Nat) (tr : List GateEvent)
    (h : WFGateTrace tr) :
    hci_transport_h4_can_send_now packet_type (runGate tr) = true ↔
      pendingWrites tr = 0 := by
  obtain ⟨h1, h2, h3⟩ := runGate_eq_pendingWrites tr h
  simp only [hci_transport_h4_can_send_now, beq_iff_eq, pendingWrites]
  omega

/-- C3 witness: along the trace `send_packet` then write-completion,
`can_send_now` agrees with "no write outstanding". -/
theorem send_gate_exclusivity_witness :
    hci_transport_h4_can_send_now 0 (runGate [.send, .sent]) = true ↔
      pendingWrites [.send, .sent] = 0 :=
  send_gate_exclusivity 0 [.send, .sent]
    (WFGateTrace.sent [.send]
      (WFGateTrace.send [] WFGateTrace.nil (by decide)) (by decide))

/-- C8: on every write-completion callback the gate is cleared first — so
`can_send_now` already returns true at the moment the handler runs — and the
handler is invoked exactly once with the fixed 2-byte synthetic
"transport packet sent" event (Event type, data = event code followed by a
zero parameter-length byte, reported size 2). -/
theorem block_sent_clears_gate_and_notifies (g packet_type : Nat) :
    (hci_transport_h4_block_sent g).1 = 0 ∧
    hci_transport_h4_can_send_now packet_type (hci_transport_h4_block_sent g).1 = true ∧
    (hci_transport_h4_block_sent g).2 =
      ⟨HCI_EVENT_PACKET, [HCI_EVENT_TRANSPORT_PACKET_SENT, 0], 2⟩ :=
  ⟨rfl, rfl, rfl⟩

/-- C10: `send_packet` performs no check of the write gate: for every packet
type, payload and length, and for every prior `uart_write_active` value — in
particular while `can_send_now` is false — it writes the type tag into the
byte immediately preceding the payload, sets the gate, issues a driver write of
`size + 1` bytes starting at the tag, and returns 0. -/
theorem send_packet_unconditional (g packet_type size : Nat) (packet : List Nat) :
    hci_transport_h4_send_packet g packet_type packet size =
      (0, 1, (packet_type % 256 :: packet, size + 1)) ∧
    hci_transport_h4_can_send_now packet_type
      (hci_transport_h4_send_packet g packet_type packet size).2.1 = false :=
  ⟨rfl, rfl⟩

/-! ### Lifecycle -/

/-- The full module-level mutable state the lifecycle functions touch: the
receive framer plus the write mutex. -/
structure TransportState where
  framer : FramerState
  uart_write_active : Nat

/-- `hci_transport_h4_open`: calls the driver's `open`; a nonzero driver result
is returned unchanged with nothing touched; on success the framer state machine
is reset and the first read is triggered.  Takes the driver's `open` result;
returns (return value, state after, the read request `(offset, length)` handed
to `receive_block`, if any). -/
def hci_transport_h4_open (uart_open_result : Int) (s : TransportState) :
    Int × TransportState × Option (Nat × Nat) :=
  if uart_open_result ≠ 0 then (uart_open_result, s, none)
  else
    let framer := hci_transport_h4_reset_statemachine s.framer
    (0, { s with framer := framer }, some (framer.read_pos, framer.bytes_to_read))

/-- `hci_transport_h4_close`: returns the driver's `close` result and touches
no transport state. -/
def hci_transport_h4_close (uart_close_result : Int) (s : TransportState) :
    Int × TransportState :=
  (uart_close_result, s)

/-- C6 counterexample: `open()` does not clear the write gate — a successful
`open` entered with `uart_write_active = 1` leaves it at 1. -/
theorem open_does_not_clear_write_gate :
    ¬ ((hci_transport_h4_open 0 ⟨initialFramer, 1⟩).2.1.uart_write_active = 0) := by
  decide

/-- C6 (amended): `open()` and `close()` leave `uart_write_active` unchanged,
whatever its prior value and whatever the driver returns; the gate starts
cleared only because the static variable is zero-initialized, and is toggled
solely by `send_packet` and the write-completion callback. -/
theorem open_close_preserve_write_gate (res : Int) (s : TransportState) :
    (hci_transport_h4_open res s).2.1.uart_write_active = s.uart_write_active ∧
    (hci_transport_h4_close res s).2.uart_write_active = s.uart_write_active := by
  constructor
  · by_cases h : res = 0 <;> simp [hci_transport_h4_open, h]
  · rfl

/-- C7: `open()` returns 0 exactly when the driver's `open` succeeds; on
success it resets the framer (awaiting-type, `read_pos = 0`,
`bytes_to_read = 1`, buffer untouched) and issues a first read of 1 byte at
offset 0; on driver failure it returns the driver's error code verbatim,
leaves all state unchanged and issues no read. -/
theorem open_success_and_failure (res : Int) (s : TransportState) :
    ((hci_transport_h4_open res s).1 = 0 ↔ res = 0) ∧
    (res = 0 →
      (hci_transport_h4_open res s).2.1.framer =
        hci_transport_h4_reset_statemachine s.framer ∧
      (hci_transport_h4_open res s).2.2 = some (0, 1)) ∧
    (res ≠ 0 → hci_transport_h4_open res s = (res, s, none)) := by
  by_cases h : res = 0
  · subst h
    refine ⟨by simp [hci_transport_h4_open], fun _ => ⟨?_, ?_⟩,
      fun hne => absurd rfl hne⟩
    · simp [hci_transport_h4_open]
    · simp [hci_transport_h4_open, hci_transport_h4_reset_statemachine]
  · refine ⟨by simp [hci_transport_h4_open, h], fun he => absurd he h, fun _ => ?_⟩
    simp [hci_transport_h4_open, h]

/-- C7 witness: a successful driver `open` (result 0) resets the framer and
issues the one-byte read at offset 0; a failing one (result 5) is propagated
verbatim with nothing touched. -/
theorem open_success_and_failure_witness :
    ((hci_transport_h4_open 0 ⟨initialFramer, 0⟩).2.1.framer =
        hci_transport_h4_reset_statemachine initialFramer ∧
      (hci_transport_h4_open 0 ⟨initialFramer, 0⟩).2.2 = some (0, 1)) ∧
    hci_transport_h4_open 5 ⟨initialFramer, 0⟩ = (5, ⟨initialFramer, 0⟩, none) :=
  ⟨(open_success_and_failure 0 ⟨initialFramer, 0⟩).2.1 rfl,
   (open_success_and_failure 5 ⟨initialFramer, 0⟩).2.2 (by decide)⟩

/-- The `hci_transport_config_uart_t` configuration as the C cast sees it: the
kind discriminant `type` followed by the UART parameters (the device
identifier is modelled as an opaque number). -/
structure hci_transport_config_uart_t where
  type : Nat
  baudrate_init : Nat
  flowcontrol : Nat
  device_name : Nat
deriving DecidableEq, Repr

/-- The driver configuration `uart_config` populated by `init`. -/
structure btstack_uart_config_t where
  baudrate : Nat
  flowcontrol : Nat
  device_name : Nat
deriving DecidableEq, Repr

/-- The state `hci_transport_h4_init` touches: the driver configuration,
whether the driver's `init` was called, and whether the two completion
callbacks were wired. -/
structure InitState where
  uart_config : btstack_uart_config_t
  uart_driver_init_done : Bool
  block_received_wired : Bool
  block_sent_wired : Bool
deriving DecidableEq, Repr

/-- `hci_transport_h4_init`: a missing configuration, or one whose `type` is
not `HCI_TRANSPORT_CONFIG_UART`, is logged and the function returns with no
effect; otherwise the three UART parameters are copied into `uart_config`, the
driver is initialized and both completion callbacks are wired. -/
def hci_transport_h4_init (transport_config : Option hci_transport_config_uart_t)
    (s : InitState) : InitState :=
  match transport_config with
  | none => s
  | some cfg =>
      if cfg.type ≠ HCI_TRANSPORT_CONFIG_UART then s
      else
        { uart_config := ⟨cfg.baudrate_init, cfg.flowcontrol, cfg.device_name⟩,
          uart_driver_init_done := true,
          block_received_wired := true,
          block_sent_wired := true }

/-- C9: `init` with a missing or non-UART-kind configuration returns without
any effect (no field copied, driver not initialized, no callback wired); with
a UART-kind configuration it copies baud rate, flow-control mode and device
identifier into the driver configuration and wires the block-received and
block-sent callbacks. -/
theorem init_config_validation (cfg? : Option hci_transport_config_uart_t)
    (s : InitState) :
    (cfg? = none → hci_transport_h4_init cfg? s = s) ∧
    (∀ cfg, cfg? = some cfg → cfg.type ≠ HCI_TRANSPORT_CONFIG_UART →
      hci_transport_h4_init cfg? s = s) ∧
    (∀ cfg, cfg? = some cfg → cfg.type = HCI_TRANSPORT_CONFIG_UART →
      hci_transport_h4_init cfg? s =
        ⟨⟨cfg.baudrate_init, cfg.flowcontrol, cfg.device_name⟩,
         true, true, true⟩) := by
  refine ⟨fun h => by subst h; rfl, fun cfg hc hne => ?_, fun cfg hc he => ?_⟩
  · subst hc
    simp [hci_transport_h4_init, hne]
  · subst hc
    simp [hci_transport_h4_init, he]

/-- C9 witness: a missing configuration and a wrong-kind configuration leave
the state untouched; a UART-kind configuration copies the parameters and wires
both callbacks. -/
theorem init_config_validation_witness :
    hci_transport_h4_init none ⟨⟨0, 0, 0⟩, false, false, false⟩ =
        ⟨⟨0, 0, 0⟩, false, false, false⟩ ∧
    hci_transport_h4_init (some ⟨1, 115200, 1, 7⟩)
        ⟨⟨0, 0, 0⟩, false, false, false⟩ = ⟨⟨0, 0, 0⟩, false, false, false⟩ ∧
    hci_transport_h4_init (some ⟨0, 115200, 1, 7⟩)
        ⟨⟨0, 0, 0⟩, false, false, false⟩ = ⟨⟨115200, 1, 7⟩, true, true, true⟩ :=
  ⟨(init_config_validation none ⟨⟨0, 0, 0⟩, false, false, false⟩).1 rfl,
   (init_config_validation (some ⟨1, 115200, 1, 7⟩)
      ⟨⟨0, 0, 0⟩, false, false, false⟩).2.1 ⟨1, 115200, 1, 7⟩ rfl (by decide),
   (init_config_validation (some ⟨0, 115200, 1, 7⟩)
      ⟨⟨0, 0, 0⟩, false, false, false⟩).2.2 ⟨0, 115200, 1, 7⟩ rfl rfl⟩

end H4Transport
